import Mathlib

/-!
Shallow embedding of the flashscore match-record extraction pipeline of
`src/data_management/_Data_acquisition.py` (method `_get_flashscore_data`,
lines 138-178), together with theorems settling the frozen claims about it.

Python strings are modelled as `List Char` (ASCII scope: the inputs of the
pipeline are scraped ASCII text; Python `int()` additionally accepts
non-ASCII unicode digits and unicode whitespace, which no claim exercises).
Machine-level concerns do not arise: Python integers are unbounded, so
scores and years are `Int`/`Nat`.
-/

/-- A Python string, modelled as its list of characters. -/
abbrev PyStr := List Char

/-- Characters stripped by Python `int(str)` / matched by a whitespace
format unit (ASCII part of Python whitespace). -/
def pyWs (c : Char) : Bool :=
  c = ' ' || c = '\t' || c = '\n' || c = '\r' || c = '\x0b' || c = '\x0c'

/-- Numeric value of a decimal digit character. -/
def digVal (c : Char) : Nat := c.toNat - 48

/-- Value of a list of decimal digit characters, most significant first. -/
def digitsVal (l : List Char) : Nat := l.foldl (fun a c => 10 * a + digVal c) 0

/-- Tail of a Python integer-literal digit run: digits, where each
underscore must be immediately followed by a digit (hence sits between
digits; no leading, trailing or doubled underscores). -/
def pyDigitsTail : List Char → Bool
  | [] => true
  | c :: rs =>
    if c = '_' then
      match rs with
      | d :: rs2 => d.isDigit && pyDigitsTail rs2
      | [] => false
    else c.isDigit && pyDigitsTail rs

/-- A nonempty digit run acceptable to Python `int()` after sign removal:
starts with a digit, underscores only between digits. -/
def pyDigitsOk : List Char → Bool
  | [] => false
  | c :: rs => c.isDigit && pyDigitsTail rs

/-- Parse an unsigned Python integer-literal digit run. -/
def parseUInt (l : List Char) : Option Nat :=
  if pyDigitsOk l then some (digitsVal (l.filter (fun c => c ≠ '_'))) else none

/-- Strip leading and trailing Python whitespace. -/
def pyStrip (s : PyStr) : PyStr :=
  ((s.dropWhile pyWs).reverse.dropWhile pyWs).reverse

/-- Python `int(s)` for a string argument: strip whitespace, optional
sign, then a digit run possibly containing underscores between digits.
`none` models the `ValueError` raised on any other shape. -/
def pyIntOfStr (s : PyStr) : Option Int :=
  match pyStrip s with
  | [] => none
  | c :: r =>
    if c = '+' then (parseUInt r).map Int.ofNat
    else if c = '-' then (parseUInt r).map (fun n => -(n : Int))
    else (parseUInt (c :: r)).map Int.ofNat

/-- Python `s.split(sep)` for a one-character separator: keeps empty
pieces, `"".split(sep) = [""]`. -/
def pySplit (sep : Char) : List Char → List (List Char)
  | [] => [[]]
  | c :: cs =>
    match pySplit sep cs with
    | [] => [[]]
    | t :: ts => if c = sep then [] :: t :: ts else (c :: t) :: ts

/-- Python `list.remove(x)` restricted to the found case: removes the
first occurrence of `x`. -/
def list_remove (x : PyStr) : List PyStr → List PyStr
  | [] => []
  | a :: as => if a = x then as else a :: list_remove x as

/-- The extra-time marker token removed by line 144. -/
def aot : PyStr := "AOT".toList

/-- Lines 143-144: split the raw block text on newlines and drop the
first `"AOT"` token when one is present (`match_text.remove('AOT') if
'AOT' in match_text else ...`). -/
def tokenize (b : PyStr) : List PyStr :=
  let ts := pySplit '\n' b
  if aot ∈ ts then list_remove aot ts else ts

/-- Python `>` on strings: lexicographic comparison by code point, a
proper prefix being smaller. Line 155 applies it to the raw score texts. -/
def pyStrGt : PyStr → PyStr → Bool
  | [], _ => false
  | _ :: _, [] => true
  | a :: as, b :: bs =>
    if b.toNat < a.toNat then true
    else if a.toNat < b.toNat then false
    else pyStrGt as bs

/-- Python `s.index(c)`: index of the first occurrence, `none` models the
`ValueError` when absent. -/
def pyIndex (c : Char) : List Char → Option Nat
  | [] => none
  | a :: as => if a = c then some 0 else (pyIndex c as).map (· + 1)

/-- Lines 156-157: `index_space = date_str.index(' ')` followed by
`date_str = date_str[:index_space] + date_str[index_space:]`. -/
def dateReassemble (s : PyStr) : Option PyStr :=
  (pyIndex ' ' s).map (fun i => s.take i ++ s.drop i)

/-- Result of `datetime.strptime(s, '%d.%m. %H:%M')`: the year defaults to
1900 and is overwritten by `replace`, so only these four fields matter. -/
structure ParsedDT where
  day : Nat
  month : Nat
  hour : Nat
  minute : Nat
deriving DecidableEq, Repr

/-- Read a run of one or two digits (the numeric format units `%d`, `%m`,
`%H`, `%M` match one or two digits, always followed here by a non-digit
literal or the end of the string, so the regex consumes the maximal run). -/
def readNum2 (l : List Char) : Option (Nat × List Char) :=
  let ds := l.takeWhile Char.isDigit
  if ds.length = 1 ∨ ds.length = 2 then some (digitsVal ds, l.dropWhile Char.isDigit)
  else none

/-- Day count per month in 1900 (the default `strptime` year, not a leap
year), used by the `datetime` constructor's range check. -/
def daysInMonth1900 (m : Nat) : Nat :=
  if m = 2 then 28 else if m = 4 ∨ m = 6 ∨ m = 9 ∨ m = 11 then 30 else 31

/-- Line 158, `datetime.strptime(date_str, '%d.%m. %H:%M')`: day, dot,
month, dot, at least one whitespace character (a literal space in the
format matches one-or-more whitespace), hour, colon, minute, end of
string, with the calendar range checks of the `datetime` constructor.
`none` models the raised `ValueError`. -/
def parseDMHM (s : PyStr) : Option ParsedDT :=
  match readNum2 s with
  | some (d, '.' :: r2) =>
    match readNum2 r2 with
    | some (m, '.' :: r4) =>
      match r4 with
      | c :: r5 =>
        if pyWs c then
          match readNum2 (r5.dropWhile pyWs) with
          | some (hh, ':' :: r7) =>
            match readNum2 r7 with
            | some (mm, []) =>
              if 1 ≤ d ∧ d ≤ daysInMonth1900 m ∧ 1 ≤ m ∧ m ≤ 12 ∧ hh ≤ 23 ∧ mm ≤ 59 then
                some ⟨d, m, hh, mm⟩
              else none
            | _ => none
          | _ => none
        else none
      | [] => none
    | _ => none
  | _ => none

/-- The value held by the `dt_year` variable: an `int` after line 140's
initialization, but a `str` after line 162's rollover assignment
`dt_year = year_league[:4]`. -/
inductive YearVal where
  | int (y : Int)
  | str (s : PyStr)
deriving DecidableEq, Repr

/-- Python exceptions that can escape a record's processing. -/
inductive PyErr where
  | valueError
  | typeError
deriving DecidableEq, Repr

/-- A log event; `errorSkip` is line 152's `logger.error` carrying the raw
tokens of the skipped record. -/
inductive LogEntry where
  | errorSkip (tokens : List PyStr)
deriving DecidableEq, Repr

/-- The per-run mutable state threaded through the loop: `last_month`
(initialized to `-1` on line 139) and `dt_year` (line 140). -/
structure PState where
  last_month : Int
  dt_year : YearVal
deriving DecidableEq, Repr

/-- The caller-supplied context attached verbatim to every row. -/
structure Ctx where
  state : PyStr
  league : PyStr
  year_league : PyStr
deriving DecidableEq, Repr

/-- The fully-qualified timestamp after `dt.replace(year=dt_year)`. -/
structure FullDT where
  year : Int
  month : Nat
  day : Nat
  hour : Nat
  minute : Nat
deriving DecidableEq, Repr

/-- The numeric columns of a row after line 172's
`row[:7] + list(map(int, row[7:]))` coercion. -/
structure Scores where
  h_all : Int
  a_all : Int
  h14 : Int
  a14 : Int
  h24 : Int
  a24 : Int
  h34 : Int
  a34 : Int
  h44 : Int
  a44 : Int
  h54 : Int
  a54 : Int
deriving DecidableEq, Repr

/-- One emitted row of the output dataframe (columns of line 124). -/
structure MatchRow where
  state : PyStr
  league : PyStr
  league_years : PyStr
  dt : FullDT
  home : PyStr
  away : PyStr
  winner : PyStr
  scores : Scores
deriving DecidableEq, Repr

/-- The positional unpacking of lines 147 and 150: the string fields of a
13- or 15-token record; `p5 = none` is the 13-token shape whose fifth
period defaults to `(0, 0)` on line 148. -/
structure Fields where
  date_str : PyStr
  home : PyStr
  away : PyStr
  h_all : PyStr
  a_all : PyStr
  h14 : PyStr
  a14 : PyStr
  h24 : PyStr
  a24 : PyStr
  h34 : PyStr
  a34 : PyStr
  h44 : PyStr
  a44 : PyStr
  p5 : Option (PyStr × PyStr)
deriving DecidableEq, Repr

/-- Lines 145-153: dispatch on the token count; any count other than 13
or 15 is rejected. -/
def classify : List PyStr → Option Fields
  | [d, h, a, ha, aa, x1, y1, x2, y2, x3, y3, x4, y4] =>
    some ⟨d, h, a, ha, aa, x1, y1, x2, y2, x3, y3, x4, y4, none⟩
  | [d, h, a, ha, aa, x1, y1, x2, y2, x3, y3, x4, y4, x5, y5] =>
    some ⟨d, h, a, ha, aa, x1, y1, x2, y2, x3, y3, x4, y4, some (x5, y5)⟩
  | _ => none

/-- Line 172's `map(int, row[7:])`, applied left to right; the first
non-numeric field raises (`none`). For the 13-token shape the fifth
period is the integers `0, 0` set on line 148, on which `int` is the
identity. -/
def coerceRow (f : Fields) : Option Scores := do
  let a ← pyIntOfStr f.h_all
  let b ← pyIntOfStr f.a_all
  let c ← pyIntOfStr f.h14
  let d ← pyIntOfStr f.a14
  let e ← pyIntOfStr f.h24
  let g ← pyIntOfStr f.a24
  let h ← pyIntOfStr f.h34
  let i ← pyIntOfStr f.a34
  let j ← pyIntOfStr f.h44
  let k ← pyIntOfStr f.a44
  match f.p5 with
  | none => pure ⟨a, b, c, d, e, g, h, i, j, k, 0, 0⟩
  | some (u, v) => do
    let x ← pyIntOfStr u
    let y ← pyIntOfStr v
    pure ⟨a, b, c, d, e, g, h, i, j, k, x, y⟩

/-- Outcome of processing one raw block inside the loop body. -/
inductive StepRes where
  | skip (lg : LogEntry)
  | emit (r : MatchRow) (st : PState)
  | crash (e : PyErr)
deriving DecidableEq, Repr

/-- Lines 155-173 for a record of recognized shape: winner by Python
string comparison, date reassembly and parse, rollover year tracking,
`dt.replace(year=dt_year)` (a `TypeError` when `dt_year` is the string
assigned by the rollover), then integer coercion and row construction. -/
def finishRecord (ctx : Ctx) (st : PState) (f : Fields) : StepRes :=
  let winner :=
    if pyStrGt f.h_all f.a_all then "home".toList
    else if pyStrGt f.a_all f.h_all then "away".toList
    else "draw".toList
  match dateReassemble f.date_str with
  | none => .crash .valueError
  | some ds =>
    match parseDMHM ds with
    | none => .crash .valueError
    | some pd =>
      let yv := if st.last_month = 1 ∧ pd.month = 12 then YearVal.str (ctx.year_league.take 4)
                else st.dt_year
      match yv with
      | .str _ => .crash .typeError
      | .int y =>
        match coerceRow f with
        | none => .crash .valueError
        | some sc =>
          .emit ⟨ctx.state, ctx.league, ctx.year_league,
                 ⟨y, pd.month, pd.day, pd.hour, pd.minute⟩,
                 f.home, f.away, winner, sc⟩
                ⟨(pd.month : Int), yv⟩

/-- The loop body of lines 141-173 for one raw block. -/
def step (ctx : Ctx) (st : PState) (b : PyStr) : StepRes :=
  match classify (tokenize b) with
  | none => .skip (.errorSkip (tokenize b))
  | some f => finishRecord ctx st f

/-- Accumulated outcome of the `for match in matches` loop. -/
structure RunOut where
  rows : List MatchRow
  logs : List LogEntry
  final : PState
  err : Option PyErr
deriving DecidableEq, Repr

/-- The `for match in matches` loop: a skipped record logs and leaves the
state untouched, an emitted record appends one row and updates the state,
and an uncaught exception aborts the loop (no later block is processed). -/
def processMatches (ctx : Ctx) : PState → List PyStr → RunOut
  | st, [] => ⟨[], [], st, none⟩
  | st, b :: bs =>
    match step ctx st b with
    | .skip lg =>
      let r := processMatches ctx st bs
      ⟨r.rows, lg :: r.logs, r.final, r.err⟩
    | .emit row st' =>
      let r := processMatches ctx st' bs
      ⟨row :: r.rows, r.logs, r.final, r.err⟩
    | .crash e => ⟨[], [], st, some e⟩

/-- Line 140: `dt_year = int(year_league[5:])`. -/
def initDtYear (year_league : PyStr) : Option Int :=
  pyIntOfStr (year_league.drop 5)

/-- The extraction pipeline of `_get_flashscore_data` from line 139 on:
initialize the tracked year from the season label (a failure there raises
before any block is processed, leaving the table empty), then run the
per-record loop. Returns (rows, logs, uncaught exception). -/
def get_flashscore_data (state league year_league : PyStr) (blocks : List PyStr) :
    List MatchRow × List LogEntry × Option PyErr :=
  match initDtYear year_league with
  | none => ([], [], some .valueError)
  | some y =>
    let r := processMatches ⟨state, league, year_league⟩ ⟨-1, .int y⟩ blocks
    (r.rows, r.logs, r.err)

/-- Modelled from the spec claim's words (claim C10): a "decimal numeral"
is a nonempty string of decimal digits. Compared against the source-side
`pyIntOfStr`. -/
def isDecimalNumeral (s : PyStr) : Bool :=
  !s.isEmpty && s.all Char.isDigit

/-! Concrete inputs used by witnesses and counterexamples. -/

/-- Caller context used in concrete runs. -/
def ctx0 : Ctx := ⟨"CA".toList, "NBA".toList, "2022-2023".toList⟩

/-- Loop state right after line 139-140 for season "2022-2023". -/
def pst0 : PState := ⟨-1, .int 2023⟩

/-- A well-formed 13-token January block. -/
def blkJan : PyStr := "15.01. 12:00\nAA\nBB\n10\n8\n2\n2\n2\n2\n2\n2\n2\n2".toList

/-- A well-formed 13-token December block. -/
def blkDec : PyStr := "20.12. 18:30\nCC\nDD\n7\n9\n1\n3\n2\n2\n2\n2\n2\n2".toList

/-- A well-formed 13-token block whose totals 9 and 85 compare the wrong
way round as strings. -/
def blkLex : PyStr := "01.05. 18:00\nTeamA\nTeamB\n9\n85\n2\n20\n3\n20\n2\n20\n2\n25".toList

/-- A 13-token block with a non-numeric first-period score "x". -/
def blkBadScore : PyStr := "01.05. 18:00\nAA\nBB\n10\n8\nx\n2\n2\n2\n2\n2\n2\n2".toList

/-- A 14-token block (unrecognized shape). -/
def blkLen14 : PyStr := "01.05. 18:00\nAA\nBB\n10\n8\n2\n2\n2\n2\n2\n2\n2\n2\n7".toList

/-- A well-formed block with an "AOT" marker and a fifth period: 16 raw
tokens, 15 after the marker is removed. -/
def blk15 : PyStr :=
  "03.06. 20:00\nEE\nFF\n101\n99\nAOT\n25\n25\n25\n24\n25\n25\n20\n20\n6\n5".toList

/-- The row emitted for `blk15` from state `pst0`. -/
def row15 : MatchRow :=
  ⟨"CA".toList, "NBA".toList, "2022-2023".toList, ⟨2023, 6, 3, 20, 0⟩,
   "EE".toList, "FF".toList, "away".toList,
   ⟨101, 99, 25, 25, 25, 24, 25, 25, 20, 20, 6, 5⟩⟩

/-! Structural lemmas about the embedded pipeline. -/

/-- Python `list.remove` in the found case agrees with `List.erase`. -/
theorem list_remove_eq_erase (x : PyStr) (l : List PyStr) :
    list_remove x l = l.erase x := by
  induction l with
  | nil => rfl
  | cons a as ih =>
    by_cases h : a = x
    · simp [list_remove, List.erase_cons, h]
    · simp [list_remove, List.erase_cons, h, ih]

/-- The classifier rejects a token list exactly when its length is
neither 13 nor 15. -/
theorem classify_eq_none_iff (ts : List PyStr) :
    classify ts = none ↔ ts.length ≠ 13 ∧ ts.length ≠ 15 := by
  rcases ts with _ | ⟨a1, _ | ⟨a2, _ | ⟨a3, _ | ⟨a4, _ | ⟨a5, _ | ⟨a6, _ | ⟨a7, _ | ⟨a8, _ | ⟨a9, _ | ⟨a10, _ | ⟨a11, _ | ⟨a12, _ | ⟨a13, _ | ⟨a14, _ | ⟨a15, _ | ⟨a16, rest⟩⟩⟩⟩⟩⟩⟩⟩⟩⟩⟩⟩⟩⟩⟩⟩ <;>
    simp [classify]

/-- A successfully classified token list is exactly the fields of the
produced record, the fifth-period pair extending the 13-token core. -/
theorem classify_eq_some_inv (ts : List PyStr) (f : Fields) (h : classify ts = some f) :
    ts = [f.date_str, f.home, f.away, f.h_all, f.a_all, f.h14, f.a14, f.h24, f.a24,
          f.h34, f.a34, f.h44, f.a44] ++
         (match f.p5 with | none => [] | some (u, v) => [u, v]) := by
  rcases ts with _ | ⟨a1, _ | ⟨a2, _ | ⟨a3, _ | ⟨a4, _ | ⟨a5, _ | ⟨a6, _ | ⟨a7, _ | ⟨a8, _ | ⟨a9, _ | ⟨a10, _ | ⟨a11, _ | ⟨a12, _ | ⟨a13, _ | ⟨a14, _ | ⟨a15, _ | ⟨a16, rest⟩⟩⟩⟩⟩⟩⟩⟩⟩⟩⟩⟩⟩⟩⟩⟩ <;>
    simp only [classify] at h <;>
    first
    | exact Option.noConfusion h
    | (injection h with h2; subst h2; rfl)

/-- A successful row coercion certifies that every one of the ten core
score fields parses as an integer, and pins the fifth-period values: the
line 148 default `(0, 0)` for the 13-token shape, the parses of the last
two tokens for the 15-token shape. -/
theorem coerceRow_some_inv (f : Fields) (sc : Scores) (h : coerceRow f = some sc) :
    (pyIntOfStr f.h_all).isSome ∧ (pyIntOfStr f.a_all).isSome ∧
    (pyIntOfStr f.h14).isSome ∧ (pyIntOfStr f.a14).isSome ∧
    (pyIntOfStr f.h24).isSome ∧ (pyIntOfStr f.a24).isSome ∧
    (pyIntOfStr f.h34).isSome ∧ (pyIntOfStr f.a34).isSome ∧
    (pyIntOfStr f.h44).isSome ∧ (pyIntOfStr f.a44).isSome ∧
    (match f.p5 with
     | none => sc.h54 = 0 ∧ sc.a54 = 0
     | some (u, v) => pyIntOfStr u = some sc.h54 ∧ pyIntOfStr v = some sc.a54) := by
  rcases hp : f.p5 with _ | ⟨u, v⟩
  · simp only [coerceRow, hp, Option.bind_eq_bind, Option.bind_eq_some, Option.pure_def,
      Option.some.injEq] at h
    obtain ⟨a, ha, b, hb, c, hc, d, hd, e, he, g, hg, h1, hh1, i, hi, j, hj, k, hk, heq⟩ := h
    subst heq
    simp [ha, hb, hc, hd, he, hg, hh1, hi, hj, hk]
  · simp only [coerceRow, hp, Option.bind_eq_bind, Option.bind_eq_some, Option.pure_def,
      Option.some.injEq] at h
    obtain ⟨a, ha, b, hb, c, hc, d, hd, e, he, g, hg, h1, hh1, i, hi, j, hj, k, hk,
      x, hx, y, hy, heq⟩ := h
    subst heq
    simp [ha, hb, hc, hd, he, hg, hh1, hi, hj, hk, hx, hy]

/-- An emitted row certifies that the coercion of line 172 succeeded and
that its numeric columns are exactly the coercion's result. -/
theorem finishRecord_emit_inv (ctx : Ctx) (st : PState) (f : Fields) (r : MatchRow)
    (st' : PState) (h : finishRecord ctx st f = .emit r st') :
    coerceRow f = some r.scores := by
  unfold finishRecord at h
  repeat' split at h
  all_goals try (rcases hdy : st.dt_year with y | s <;> rw [hdy] at h)
  all_goals simp_all
  all_goals rw [← h.1]

/-- A token count other than 13 and 15 takes the `else` branch of lines
151-153: log the raw tokens at error level and `continue`. -/
theorem step_skip_of_len (ctx : Ctx) (st : PState) (b : PyStr)
    (h13 : (tokenize b).length ≠ 13) (h15 : (tokenize b).length ≠ 15) :
    step ctx st b = .skip (.errorSkip (tokenize b)) := by
  unfold step
  rw [(classify_eq_none_iff (tokenize b)).2 ⟨h13, h15⟩]

/-- An emitted row comes from a successfully classified record. -/
theorem step_emit_classify (ctx : Ctx) (st : PState) (b : PyStr) (r : MatchRow)
    (st' : PState) (h : step ctx st b = .emit r st') :
    ∃ f, classify (tokenize b) = some f ∧ finishRecord ctx st f = .emit r st' := by
  unfold step at h
  rcases hc : classify (tokenize b) with _ | f
  · rw [hc] at h
    exact StepRes.noConfusion h
  · rw [hc] at h
    exact ⟨f, rfl, h⟩

/-- An uncaught exception in the loop body aborts the whole loop: no row
and no log from this or any later block. -/
theorem step_crash_aborts (ctx : Ctx) (st : PState) (b : PyStr) (bs : List PyStr)
    (e : PyErr) (h : step ctx st b = .crash e) :
    processMatches ctx st (b :: bs) = ⟨[], [], st, some e⟩ := by
  simp [processMatches, h]

/-- The record-shape dispatcher never takes the skip branch once a record
is classified: lines 155-173 either emit a row or raise. -/
theorem finishRecord_ne_skip (ctx : Ctx) (st : PState) (f : Fields) (lg : LogEntry) :
    finishRecord ctx st f ≠ .skip lg := by
  intro h
  unfold finishRecord at h
  repeat' split at h
  all_goals try (rcases hdy : st.dt_year with y | s <;> rw [hdy] at h)
  all_goals simp_all

/-- Membership in a list yields a first index for `pyIndex`. -/
theorem pyIndex_isSome_of_mem (c : Char) (s : List Char) (h : c ∈ s) :
    ∃ i, pyIndex c s = some i := by
  induction s with
  | nil => cases h
  | cons a as ih =>
    by_cases hac : a = c
    · exact ⟨0, by simp [pyIndex, hac]⟩
    · rcases List.mem_cons.1 h with rfl | hmem
      · exact absurd rfl hac
      · obtain ⟨i, hi⟩ := ih hmem
        exact ⟨i + 1, by simp [pyIndex, hac, hi]⟩

/-- C6: the tokenizer output is exactly the split of the raw block on
line breaks with the first `"AOT"` token erased when present and the
split itself otherwise — no other transformation is applied. -/
theorem tokenize_split_remove_aot (b : PyStr) :
    tokenize b = (pySplit '\n' b).erase aot := by
  unfold tokenize
  by_cases h : aot ∈ pySplit '\n' b
  · simp [h, list_remove_eq_erase]
  · simp [h, List.erase_of_not_mem h]

/-- C9: for every date string containing a space, the reassembly
`date_str[:index_space] + date_str[index_space:]` of lines 156-157 is the
identity, so the datetime parse receives the original token unchanged. -/
theorem date_reassemble_identity (s : PyStr) (h : ' ' ∈ s) :
    dateReassemble s = some s := by
  obtain ⟨i, hi⟩ := pyIndex_isSome_of_mem ' ' s h
  simp [dateReassemble, hi, List.take_append_drop]

/-- Witness for C9 at the concrete date token "01.05. 18:00". -/
theorem date_reassemble_identity_witness :
    dateReassemble ("01.05. 18:00".toList) = some ("01.05. 18:00".toList) :=
  date_reassemble_identity ("01.05. 18:00".toList) (by decide)

/-- C8: the extraction pipeline is deterministic — two runs over equal
block sequences with equal season label, state and league produce equal
outputs (rows, logs and final error alike). -/
theorem pipeline_deterministic (s1 l1 y1 : PyStr) (bs1 : List PyStr)
    (s2 l2 y2 : PyStr) (bs2 : List PyStr)
    (hs : s1 = s2) (hl : l1 = l2) (hy : y1 = y2) (hb : bs1 = bs2) :
    get_flashscore_data s1 l1 y1 bs1 = get_flashscore_data s2 l2 y2 bs2 := by
  subst hs
  subst hl
  subst hy
  subst hb
  rfl

/-- Witness for C8 on a concrete run. -/
theorem pipeline_deterministic_witness :
    get_flashscore_data ctx0.state ctx0.league ctx0.year_league [blkLex] =
    get_flashscore_data ctx0.state ctx0.league ctx0.year_league [blkLex] :=
  pipeline_deterministic _ _ _ _ _ _ _ _ rfl rfl rfl rfl

/-- C4: a block whose token count is neither 13 nor 15 produces no row,
contributes exactly one error-level log carrying its raw tokens, and
leaves the processing of all remaining blocks (rows, final state and
error outcome) unchanged. -/
theorem malformed_length_skip_isolated (ctx : Ctx) (st : PState) (b : PyStr)
    (bs : List PyStr)
    (h13 : (tokenize b).length ≠ 13) (h15 : (tokenize b).length ≠ 15) :
    processMatches ctx st (b :: bs) =
      ⟨(processMatches ctx st bs).rows,
       .errorSkip (tokenize b) :: (processMatches ctx st bs).logs,
       (processMatches ctx st bs).final,
       (processMatches ctx st bs).err⟩ := by
  have hs := step_skip_of_len ctx st b h13 h15
  simp [processMatches, hs]

/-- Witness for C4: a 14-token block is skipped with one error log and
the following valid block still produces its row. -/
theorem malformed_length_skip_isolated_witness :
    processMatches ctx0 pst0 (blkLen14 :: [blkJan]) =
      ⟨(processMatches ctx0 pst0 [blkJan]).rows,
       .errorSkip (tokenize blkLen14) :: (processMatches ctx0 pst0 [blkJan]).logs,
       (processMatches ctx0 pst0 [blkJan]).final,
       (processMatches ctx0 pst0 [blkJan]).err⟩ :=
  malformed_length_skip_isolated ctx0 pst0 blkLen14 [blkJan] (by decide) (by decide)

/-- C5: every emitted row has the full integer-typed period set (the
`Scores` columns): a 13-token record gets fifth period `(0, 0)`, a
15-token record gets the integer parses of its last two tokens. -/
theorem emitted_record_period5 (ctx : Ctx) (st : PState) (b : PyStr) (r : MatchRow)
    (st' : PState) (h : step ctx st b = .emit r st') :
    ((tokenize b).length = 13 ∧ r.scores.h54 = 0 ∧ r.scores.a54 = 0) ∨
    ((tokenize b).length = 15 ∧ ∃ u v, (tokenize b)[13]? = some u ∧
      (tokenize b)[14]? = some v ∧
      pyIntOfStr u = some r.scores.h54 ∧ pyIntOfStr v = some r.scores.a54) := by
  obtain ⟨f, hcf, hfr⟩ := step_emit_classify ctx st b r st' h
  have hts := classify_eq_some_inv _ f hcf
  have hco := finishRecord_emit_inv ctx st f r st' hfr
  obtain ⟨i1, i2, i3, i4, i5, i6, i7, i8, i9, i10, hrest⟩ := coerceRow_some_inv f r.scores hco
  rcases hp : f.p5 with _ | ⟨u, v⟩
  · left
    simp only [hp] at hts hrest
    refine ⟨by rw [hts]; rfl, hrest⟩
  · right
    simp only [hp] at hts hrest
    refine ⟨by rw [hts]; rfl, u, v, by rw [hts]; rfl, by rw [hts]; rfl, hrest.1, hrest.2⟩

/-- Witness for C5 on the 15-token block `blk15`. -/
theorem emitted_record_period5_witness :
    ((tokenize blk15).length = 13 ∧ row15.scores.h54 = 0 ∧ row15.scores.a54 = 0) ∨
    ((tokenize blk15).length = 15 ∧ ∃ u v, (tokenize blk15)[13]? = some u ∧
      (tokenize blk15)[14]? = some v ∧
      pyIntOfStr u = some row15.scores.h54 ∧ pyIntOfStr v = some row15.scores.a54) :=
  emitted_record_period5 ctx0 pst0 blk15 row15 ⟨6, .int 2023⟩ (by decide)

/-- C3 counterexample: a 13-token record with the non-numeric score "x"
is not skipped-and-passed-over — the coercion error escapes, the run
aborts with a `ValueError`, and the following valid record (which alone
yields one row) produces nothing. -/
theorem score_coercion_not_caught_counterexample :
    (get_flashscore_data ctx0.state ctx0.league ctx0.year_league [blkBadScore, blkJan]).1 = [] ∧
    (get_flashscore_data ctx0.state ctx0.league ctx0.year_league [blkBadScore, blkJan]).2.2 =
      some .valueError ∧
    (get_flashscore_data ctx0.state ctx0.league ctx0.year_league [blkJan]).1.length = 1 := by
  decide

/-- C3 amended: a 13- or 15-token record with a non-numeric value in any
field after the team names makes the loop body raise an uncaught
exception, so the record yields no row and no later block is processed. -/
theorem score_coercion_aborts_run (ctx : Ctx) (st : PState) (b : PyStr) (bs : List PyStr)
    (hlen : (tokenize b).length = 13 ∨ (tokenize b).length = 15)
    (hbad : ∃ t ∈ (tokenize b).drop 3, pyIntOfStr t = none) :
    ∃ e, processMatches ctx st (b :: bs) = ⟨[], [], st, some e⟩ := by
  rcases hstep : step ctx st b with lg | ⟨r, st'⟩ | e
  · exfalso
    unfold step at hstep
    rcases hc : classify (tokenize b) with _ | f
    · have hno := (classify_eq_none_iff (tokenize b)).1 hc
      rcases hlen with h | h
      · exact absurd h hno.1
      · exact absurd h hno.2
    · rw [hc] at hstep
      exact finishRecord_ne_skip ctx st f lg hstep
  · exfalso
    obtain ⟨f, hcf, hfr⟩ := step_emit_classify ctx st b r st' hstep
    have hts := classify_eq_some_inv _ f hcf
    have hco := finishRecord_emit_inv ctx st f r st' hfr
    obtain ⟨i1, i2, i3, i4, i5, i6, i7, i8, i9, i10, hrest⟩ :=
      coerceRow_some_inv f r.scores hco
    obtain ⟨t, htmem, htnone⟩ := hbad
    rw [hts] at htmem
    rcases hp : f.p5 with _ | ⟨u, v⟩
    · simp only [hp] at htmem
      simp at htmem
      rcases htmem with rfl | rfl | rfl | rfl | rfl | rfl | rfl | rfl | rfl | rfl <;>
        simp_all
    · simp only [hp] at htmem hrest
      simp at htmem
      rcases htmem with rfl | rfl | rfl | rfl | rfl | rfl | rfl | rfl | rfl | rfl | rfl | rfl <;>
        simp_all
  · exact ⟨e, step_crash_aborts ctx st b bs e hstep⟩

/-- Witness for the amended C3 at the concrete bad-score block. -/
theorem score_coercion_aborts_run_witness :
    ∃ e, processMatches ctx0 pst0 (blkBadScore :: [blkJan]) = ⟨[], [], pst0, some e⟩ :=
  score_coercion_aborts_run ctx0 pst0 blkBadScore [blkJan] (Or.inl (by decide))
    ⟨"x".toList, by decide, by decide⟩

/-- C7 counterexample: with a bad-score block followed by a valid block,
the table gains no row at all — in particular not the one row the valid
block yields when processed on its own — so "exactly one row per valid
block" fails. -/
theorem rows_per_valid_block_counterexample :
    (get_flashscore_data ctx0.state ctx0.league ctx0.year_league [blkBadScore, blk15]).1 = [] ∧
    (get_flashscore_data ctx0.state ctx0.league ctx0.year_league [blk15]).1 = [row15] := by
  decide

/-- C7 amended: as long as no uncaught exception has occurred, the table
is append-only in source encounter order — extending the block sequence
only appends rows after the existing ones, never modifying, reordering or
deduplicating them; a block that raises stops all later rows. -/
theorem rows_append_only_in_order (ctx : Ctx) (st : PState) (bs1 bs2 : List PyStr)
    (h : (processMatches ctx st bs1).err = none) :
    (processMatches ctx st (bs1 ++ bs2)).rows =
      (processMatches ctx st bs1).rows ++
      (processMatches ctx (processMatches ctx st bs1).final bs2).rows := by
  induction bs1 generalizing st with
  | nil => simp [processMatches]
  | cons b bs1 ih =>
    rcases hstep : step ctx st b with lg | ⟨r, st'⟩ | e
    · simp only [List.cons_append, processMatches, hstep] at h ⊢
      exact ih st h
    · simp only [List.cons_append, processMatches, hstep, List.cons_append] at h ⊢
      simp [ih st' h]
    · simp only [processMatches, hstep] at h
      exact Option.noConfusion h

/-- Witness for the amended C7 on two concrete valid blocks. -/
theorem rows_append_only_in_order_witness :
    (processMatches ctx0 pst0 ([blkLex] ++ [blk15])).rows =
      (processMatches ctx0 pst0 [blkLex]).rows ++
      (processMatches ctx0 (processMatches ctx0 pst0 [blkLex]).final [blk15]).rows :=
  rows_append_only_in_order ctx0 pst0 [blkLex] [blk15] (by decide)

/-- C1: the winner of line 155 is computed by Python string comparison of
the raw score texts, not numeric comparison: with totals 9 and 85 the
emitted row says "home" although 9 < 85. -/
theorem winner_string_comparison_bug :
    (get_flashscore_data ctx0.state ctx0.league ctx0.year_league [blkLex]).1.map
      (fun r => (r.winner, r.scores.h_all, r.scores.a_all)) =
      [("home".toList, (9 : Int), (85 : Int))] ∧ (9 : Int) < 85 := by
  decide

/-- C2: on a January block followed by a December block with season
"2022-2023", the January row is emitted with year 2023, but the rollover
of line 162 stores the string "2022" in `dt_year`, so the December
record's `dt.replace(year=dt_year)` raises a `TypeError` and the run
aborts — no December row with year 2022 is ever emitted. -/
theorem rollover_year_type_error_bug :
    (get_flashscore_data ctx0.state ctx0.league ctx0.year_league [blkJan, blkDec]).1.map
      (fun r => r.dt.year) = [(2023 : Int)] ∧
    (get_flashscore_data ctx0.state ctx0.league ctx0.year_league [blkJan, blkDec]).2.2 =
      some .typeError := by
  decide

/-- A digit character differs from any non-digit character. -/
theorem isDigit_ne (c d : Char) (h : c.isDigit = true) (hd : d.isDigit = false) :
    c ≠ d := by
  intro hc
  subst hc
  rw [h] at hd
  cases hd

/-- Digit characters are not Python whitespace. -/
theorem digit_not_ws (c : Char) (h : c.isDigit = true) : pyWs c = false := by
  have w1 := isDigit_ne c ' ' h (by decide)
  have w2 := isDigit_ne c '\t' h (by decide)
  have w3 := isDigit_ne c '\n' h (by decide)
  have w4 := isDigit_ne c '\r' h (by decide)
  have w5 := isDigit_ne c '\x0b' h (by decide)
  have w6 := isDigit_ne c '\x0c' h (by decide)
  simp [pyWs, w1, w2, w3, w4, w5, w6]

/-- Whitespace stripping is the identity on a four-digit string. -/
theorem pyStrip_four_digits (c1 c2 c3 c4 : Char)
    (h1 : c1.isDigit = true) (h4 : c4.isDigit = true) :
    pyStrip [c1, c2, c3, c4] = [c1, c2, c3, c4] := by
  have w1 := digit_not_ws c1 h1
  have w4 := digit_not_ws c4 h4
  simp [pyStrip, List.dropWhile_cons, w1, w4]

/-- The unsigned digit-run parser accepts a four-digit string and returns
its value. -/
theorem parseUInt_four_digits (c1 c2 c3 c4 : Char)
    (h1 : c1.isDigit = true) (h2 : c2.isDigit = true)
    (h3 : c3.isDigit = true) (h4 : c4.isDigit = true) :
    parseUInt [c1, c2, c3, c4] = some (digitsVal [c1, c2, c3, c4]) := by
  have n1 := isDigit_ne c1 '_' h1 (by decide)
  have n2 := isDigit_ne c2 '_' h2 (by decide)
  have n3 := isDigit_ne c3 '_' h3 (by decide)
  have n4 := isDigit_ne c4 '_' h4 (by decide)
  simp [parseUInt, pyDigitsOk, pyDigitsTail, h1, h2, h3, h4, n1, n2, n3, n4,
    List.filter_cons]

/-- Python `int()` on a four-digit string returns its decimal value. -/
theorem pyIntOfStr_four_digits (c1 c2 c3 c4 : Char)
    (h1 : c1.isDigit = true) (h2 : c2.isDigit = true)
    (h3 : c3.isDigit = true) (h4 : c4.isDigit = true) :
    pyIntOfStr [c1, c2, c3, c4] = some (Int.ofNat (digitsVal [c1, c2, c3, c4])) := by
  have hplus := isDigit_ne c1 '+' h1 (by decide)
  have hminus := isDigit_ne c1 '-' h1 (by decide)
  unfold pyIntOfStr
  rw [pyStrip_four_digits c1 c2 c3 c4 h1 h4]
  simp [hplus, hminus, parseUInt_four_digits c1 c2 c3 c4 h1 h2 h3 h4]

/-- The decimal value of four digits, expanded. -/
theorem digitsVal_four (a b c d : Char) :
    digitsVal [a, b, c, d] =
      1000 * digVal a + 100 * digVal b + 10 * digVal c + digVal d := by
  simp [digitsVal, List.foldl]
  ring

/-- C10 counterexample: the suffix "+2023" of the label "2022-+2023" is
not a decimal numeral, yet line 140's `int(year_league[5:])` accepts it —
the run proceeds, processes blocks and emits a row instead of raising
with an empty table. -/
theorem init_year_not_numeral_counterexample :
    isDecimalNumeral (("2022-+2023".toList).drop 5) = false ∧
    initDtYear ("2022-+2023".toList) = some 2023 ∧
    (get_flashscore_data ctx0.state ctx0.league ("2022-+2023".toList) [blkJan]).1.length = 1 ∧
    (get_flashscore_data ctx0.state ctx0.league ("2022-+2023".toList) [blkJan]).2.2 = none := by
  decide

/-- C10 amended: line 140 initializes the tracked year from the label's
characters from index 5 on via Python `int` semantics before any block is
processed: for a "yyyy-yyyy" label with a 4-digit end year it succeeds
with the end year's value, and whenever the suffix is not accepted by
Python `int` (optional whitespace and sign around digits possibly
separated by single underscores) the conversion raises first and the
output table stays empty. -/
theorem init_year_python_int_semantics :
    (∀ y1 y2 y3 y4 c1 c2 c3 c4 : Char,
      y1.isDigit = true → y2.isDigit = true → y3.isDigit = true → y4.isDigit = true →
      c1.isDigit = true → c2.isDigit = true → c3.isDigit = true → c4.isDigit = true →
      initDtYear [y1, y2, y3, y4, '-', c1, c2, c3, c4] =
        some (Int.ofNat (1000 * digVal c1 + 100 * digVal c2 + 10 * digVal c3 + digVal c4))) ∧
    (∀ (s l yl : PyStr) (blocks : List PyStr), initDtYear yl = none →
      get_flashscore_data s l yl blocks = ([], [], some .valueError)) := by
  constructor
  · intro y1 y2 y3 y4 c1 c2 c3 c4 hy1 hy2 hy3 hy4 h1 h2 h3 h4
    show pyIntOfStr (([y1, y2, y3, y4, '-', c1, c2, c3, c4] : PyStr).drop 5) = _
    rw [show ([y1, y2, y3, y4, '-', c1, c2, c3, c4] : PyStr).drop 5 = [c1, c2, c3, c4] from rfl]
    rw [pyIntOfStr_four_digits c1 c2 c3 c4 h1 h2 h3 h4, digitsVal_four]
  · intro s l yl blocks h
    simp [get_flashscore_data, h]

/-- Witness for the amended C10: the label "2022-2023" initializes the
year to 2023, and a label with unparsable suffix raises with an empty
table. -/
theorem init_year_python_int_semantics_witness :
    initDtYear ("2022-2023".toList) =
      some (Int.ofNat (1000 * digVal '2' + 100 * digVal '0' + 10 * digVal '2' + digVal '3')) ∧
    get_flashscore_data [] [] ("20xx".toList) [] = ([], [], some .valueError) :=
  ⟨init_year_python_int_semantics.1 '2' '0' '2' '2' '2' '0' '2' '3'
      (by decide) (by decide) (by decide) (by decide)
      (by decide) (by decide) (by decide) (by decide),
   init_year_python_int_semantics.2 [] [] ("20xx".toList) [] (by decide)⟩
